import Mathlib

/-!
Verification development for the MCP supermarket stock-prediction server.

This file gives a shallow embedding of the server's prediction pipeline:

* `Value` models Python/JSON-compatible values (strings, ints, floats,
  booleans, null, lists, dicts).  Python floats are modelled as rationals:
  the code performs no float arithmetic beyond exact casts and comparisons
  with exactly representable constants.
* `Exc` models a raised exception: its class (`ExcKind`), the message passed
  to the constructor (which is also `str(e)` for every exception the code
  raises), and the optional `details` string of `DomainException`.
* `PredictionRequest` / `PredictionResponse` with their `__post_init__`
  validations (`src/server/domain/entities.py`).
* `predict` embeds `PredictionServiceImpl.predict`
  (`src/server/application/services.py`), parametric in the injected
  model, preprocessor and postprocessor, and additionally returns the list
  of collaborator calls it performed, in order.
* `DefaultPreprocessor.transform` / `DefaultPostprocessor.transform` embed
  `src/server/infrastructure/processors.py`.
* `post_predict` / `handleException` embed the controller's exception→status
  translation (`src/server/interface/controllers.py`).
-/

/-- Python/JSON-compatible values flowing through the pipeline.  Ints and
floats are kept distinct, as in Python; floats are exact rationals. -/
inductive Value where
  | vnull : Value
  | vbool (b : Bool) : Value
  | vint (n : Int) : Value
  | vfloat (q : ℚ) : Value
  | vstr (s : String) : Value
  | vlist (xs : List Value) : Value
  | vdict (d : List (String × Value)) : Value

/-- The exception classes of `src/server/domain/exceptions.py`, plus
`otherError` for any exception that is not one of the six domain kinds
(e.g. the `ValueError`s raised by entity validation). -/
inductive ExcKind where
  | preprocessingError
  | modelPredictionError
  | modelNotLoadedError
  | postprocessingError
  | invalidFeatureError
  | predictionServiceError
  | otherError
deriving DecidableEq, Repr

/-- A raised exception: kind, message (= `str(e)`, since `DomainException`
passes `message` to `Exception.__init__`) and the optional `details`. -/
structure Exc where
  kind : ExcKind
  message : String
  details : Option String
deriving DecidableEq, Repr

/-- Python dict lookup `d[k]` / `d.get(k)` on an association list
(keys are unique in every dict the program builds). -/
def lookupV (k : String) (d : List (String × Value)) : Option Value :=
  (d.find? (fun p => p.1 == k)).map (fun p => p.2)

/-- Python dict assignment `d[k] = v`: replaces the value in place when the
key is present, appends the pair otherwise (insertion order preserved). -/
def dictSet (d : List (String × Value)) (k : String) (v : Value) :
    List (String × Value) :=
  if d.any (fun p => p.1 == k) then
    d.map (fun p => if p.1 == k then (k, v) else p)
  else
    d ++ [(k, v)]

/-- Embeds `PredictionRequest`: a frozen dataclass holding the feature mapping. -/
structure PredictionRequest where
  features : List (String × Value)

/-- Embeds `PredictionRequest.__post_init__`: construction raises
`ValueError("Features dictionary cannot be empty")` when the mapping is
empty (an empty dict is falsy), and returns the entity otherwise. -/
def mkPredictionRequest (features : List (String × Value)) :
    Except Exc PredictionRequest :=
  match features with
  | [] => .error ⟨.otherError, "Features dictionary cannot be empty", none⟩
  | _ => .ok ⟨features⟩

/-- Embeds `PredictionResponse`: a frozen dataclass with prediction payload,
confidence and model version. -/
structure PredictionResponse where
  prediction : Value
  confidence : ℚ
  model_version : String

/-- Embeds `PredictionResponse.__post_init__`: raises
`ValueError("Confidence must be between 0.0 and 1.0")` unless
`0.0 <= confidence <= 1.0`, then
`ValueError("Model version cannot be empty")` when the version string is
empty; otherwise construction succeeds. -/
def mkPredictionResponse (prediction : Value) (confidence : ℚ)
    (model_version : String) : Except Exc PredictionResponse :=
  if 0 ≤ confidence ∧ confidence ≤ 1 then
    if model_version = "" then
      .error ⟨.otherError, "Model version cannot be empty", none⟩
    else
      .ok ⟨prediction, confidence, model_version⟩
  else
    .error ⟨.otherError, "Confidence must be between 0.0 and 1.0", none⟩

/-- Embeds `PredictionServiceImpl._calculate_confidence`: the placeholder returns
the constant `0.8` (the rational 8/10) for every pair of inputs. -/
def calculate_confidence (raw_prediction : Value) (processed_output : Value) :
    ℚ :=
  mkRat 8 10

/-- The injected collaborators of `PredictionServiceImpl`: preprocessor,
model (`predict` and `version`) and postprocessor, each of which may raise
any exception. -/
structure Components where
  preTransform : List (String × Value) → Except Exc Value
  modelPredict : Value → Except Exc Value
  version : Unit → Except Exc String
  postTransform : Value → Except Exc Value

/-- The collaborator calls `predict` can perform, recorded in order. -/
inductive Call where
  | pre
  | infer
  | vers
  | post
deriving DecidableEq, Repr

/-- The body of `PredictionServiceImpl.predict` inside the outer `try`:
each step runs in its own `try/except Exception` that wraps any failure
into the step's kind with the step's fixed message and `str(e)` as
details; the response-construction `ValueError` of step 5 escapes the
step handlers unwrapped.  The first component records the collaborator
calls performed, in order. -/
def predictBody (c : Components) (req : PredictionRequest) :
    List Call × Except Exc PredictionResponse :=
  match c.preTransform req.features with
  | .error e =>
      ([.pre],
       .error ⟨.preprocessingError, "Failed to preprocess input features",
               some e.message⟩)
  | .ok processed_input =>
    match c.modelPredict processed_input with
    | .error e =>
        ([.pre, .infer],
         .error ⟨.modelPredictionError, "Failed to execute model prediction",
                 some e.message⟩)
    | .ok raw_prediction =>
      match c.version () with
      | .error e =>
          ([.pre, .infer, .vers],
           .error ⟨.modelPredictionError, "Failed to execute model prediction",
                   some e.message⟩)
      | .ok model_version =>
        match c.postTransform raw_prediction with
        | .error e =>
            ([.pre, .infer, .vers, .post],
             .error ⟨.postprocessingError, "Failed to postprocess model output",
                     some e.message⟩)
        | .ok processed_output =>
          let confidence := calculate_confidence raw_prediction processed_output
          match mkPredictionResponse processed_output confidence model_version with
          | .error e => ([.pre, .infer, .vers, .post], .error e)
          | .ok response => ([.pre, .infer, .vers, .post], .ok response)

/-- The outer `try/except` of `PredictionServiceImpl.predict`:
`except (PreprocessingError, ModelPredictionError, PostprocessingError)`
re-raises as-is; `except Exception` wraps into
`PredictionServiceError("Unexpected error during prediction", details=str(e))`. -/
def outerHandler (r : Except Exc PredictionResponse) :
    Except Exc PredictionResponse :=
  match r with
  | .ok resp => .ok resp
  | .error e =>
      if e.kind = .preprocessingError ∨ e.kind = .modelPredictionError ∨
          e.kind = .postprocessingError then
        .error e
      else
        .error ⟨.predictionServiceError, "Unexpected error during prediction",
                some e.message⟩

/-- Embeds `PredictionServiceImpl.predict`: the step body under the outer handler,
together with the trace of collaborator calls. -/
def predict (c : Components) (req : PredictionRequest) :
    List Call × Except Exc PredictionResponse :=
  ((predictBody c req).1, outerHandler (predictBody c req).2)

/-! ### Default adapters (`src/server/infrastructure/processors.py`) -/

namespace DefaultPreprocessor

/-- The placeholder required-feature list of
`DefaultPreprocessor._validate_features`. -/
def required_features : List String := ["product_id"]

/-- Embeds `DefaultPreprocessor._validate_features`: for each required feature,
raises `PreprocessingError("Required feature missing: {feature}")` when the
key is absent and `PreprocessingError("Feature cannot be null: {feature}")`
when its value `is None`. -/
def validate_features (required : List String)
    (features : List (String × Value)) : Except Exc Unit :=
  match required with
  | [] => .ok ()
  | f :: rest =>
    match lookupV f features with
    | none =>
        .error ⟨.preprocessingError, "Required feature missing: " ++ f, none⟩
    | some .vnull =>
        .error ⟨.preprocessingError, "Feature cannot be null: " ++ f, none⟩
    | some _ => validate_features rest features

/-- Embeds `DefaultPreprocessor._apply_feature_mapping`: returns the features
unchanged when no mapping is configured, otherwise rebuilds the dict with
each key renamed through `feature_mapping.get(name, name)`. -/
def apply_feature_mapping (feature_mapping : List (String × String))
    (features : List (String × Value)) : List (String × Value) :=
  match feature_mapping with
  | [] => features
  | _ =>
    features.foldl
      (fun mapped p =>
        dictSet mapped
          (match feature_mapping.find? (fun q => q.1 == p.1) with
           | some q => q.2
           | none => p.1)
          p.2)
      []

/-- Python `str.lower()` on the ASCII strings this program handles:
lowercase every character. -/
def pyLower (s : String) : String :=
  String.mk (s.data.map Char.toLower)

/-- The cast `float(x)` applied to the values a Python
`isinstance(x, (int, float))` test accepts; `bool` is a subclass of `int`
in Python, so booleans pass the test and cast to `1.0` / `0.0`. -/
def floatCast : Value → Option Value
  | .vint n => some (.vfloat (n : ℚ))
  | .vfloat q => some (.vfloat q)
  | .vbool b => some (.vfloat (if b then 1 else 0))
  | _ => none

/-- One value of `DefaultPreprocessor._normalize_features`: numbers become
`float(value)`, strings become `value.lower()`, lists keep only their
numeric elements float-cast, everything else is unchanged. -/
def normalizeValue : Value → Value
  | .vint n => .vfloat (n : ℚ)
  | .vfloat q => .vfloat q
  | .vbool b => .vfloat (if b then 1 else 0)
  | .vstr s => .vstr (pyLower s)
  | .vlist xs => .vlist (xs.filterMap floatCast)
  | v => v

/-- Embeds `DefaultPreprocessor._normalize_features`: builds a fresh dict with
every value normalized, in iteration order. -/
def normalize_features (features : List (String × Value)) :
    List (String × Value) :=
  features.foldl (fun normalized p => dictSet normalized p.1 (normalizeValue p.2)) []

/-- Embeds `DefaultPreprocessor.transform`: validate, map, normalize inside a
`try` whose `except Exception` wraps any failure into
`PreprocessingError("Failed to preprocess input features", details=str(e))`.
Mapping and normalization are total, so only validation can fail. -/
def transform (feature_mapping : List (String × String))
    (features : List (String × Value)) : Except Exc Value :=
  match validate_features required_features features with
  | .error e =>
      .error ⟨.preprocessingError, "Failed to preprocess input features",
              some e.message⟩
  | .ok () =>
      .ok (.vdict (normalize_features (apply_feature_mapping feature_mapping features)))

end DefaultPreprocessor

namespace DefaultPostprocessor

/-- Embeds `DefaultPostprocessor._validate_output`: raises
`PostprocessingError("Model output cannot be null")` when the raw output
`is None`. -/
def validate_output : Value → Except Exc Unit
  | .vnull => .error ⟨.postprocessingError, "Model output cannot be null", none⟩
  | _ => .ok ()

/-- Embeds `DefaultPostprocessor._format_output`: dicts pass through, lists become
`{"forecast": list(output)}`, numbers (booleans included, being Python
ints) become `{"prediction": float(output)}`, anything else becomes
`{"result": str(output)}` — reachable only for strings (where `str` is the
identity) and `None` (already rejected by validation; `str(None)` is
`"None"`). -/
def format_output : Value → List (String × Value)
  | .vdict d => d
  | .vlist xs => [("forecast", .vlist xs)]
  | .vint n => [("prediction", .vfloat (n : ℚ))]
  | .vfloat q => [("prediction", .vfloat q)]
  | .vbool b => [("prediction", .vfloat (if b then 1 else 0))]
  | .vstr s => [("result", .vstr s)]
  | .vnull => [("result", .vstr "None")]

/-- Embeds `DefaultPostprocessor._enrich_output`: copies the formatted dict and
sets `enriched["format"] = output_format`. -/
def enrich_output (output_format : String) (formatted : List (String × Value)) :
    List (String × Value) :=
  dictSet formatted "format" (.vstr output_format)

/-- Embeds `DefaultPostprocessor.transform`: validate, format, enrich inside a
`try` whose `except Exception` wraps any failure into
`PostprocessingError("Failed to postprocess model output", details=str(e))`.
Formatting and enrichment are total, so only validation can fail. -/
def transform (output_format : String) (raw_output : Value) :
    Except Exc Value :=
  match validate_output raw_output with
  | .error e =>
      .error ⟨.postprocessingError, "Failed to postprocess model output",
              some e.message⟩
  | .ok () =>
      .ok (.vdict (enrich_output output_format (format_output raw_output)))

end DefaultPostprocessor

/-! ### HTTP boundary (`src/server/interface/controllers.py`, `schemas.py`) -/

/-- The body of an HTTP error response, as built by the controller:
error class name, message, optional details. -/
structure ErrorBody where
  error : String
  message : String
  details : Option String
deriving DecidableEq, Repr

/-- The Python class name of each domain exception kind;
`otherError` stands for any non-domain class and never reaches
`_format_error_response` (the generic handler hardcodes its body). -/
def excClassName : ExcKind → String
  | .preprocessingError => "PreprocessingError"
  | .modelPredictionError => "ModelPredictionError"
  | .modelNotLoadedError => "ModelNotLoadedError"
  | .postprocessingError => "PostprocessingError"
  | .invalidFeatureError => "InvalidFeatureError"
  | .predictionServiceError => "PredictionServiceError"
  | .otherError => "Exception"

/-- Embeds `MCPPredictController._format_error_response`. -/
def format_error_response (e : Exc) : ErrorBody :=
  ⟨excClassName e.kind, e.message, e.details⟩

/-- The `except` chain of `MCPPredictController.post_predict`: each branch
tests the exception's class and pairs a fixed status code with the
formatted body; the final `except Exception` returns 500 with a hardcoded
`InternalServerError` body carrying `str(e)` as details. -/
def handleException (e : Exc) : Nat × ErrorBody :=
  match e.kind with
  | .preprocessingError => (400, format_error_response e)
  | .invalidFeatureError => (400, format_error_response e)
  | .modelNotLoadedError => (503, format_error_response e)
  | .modelPredictionError => (503, format_error_response e)
  | .postprocessingError => (502, format_error_response e)
  | .predictionServiceError => (500, format_error_response e)
  | .otherError =>
      (500, ⟨"InternalServerError", "An unexpected error occurred", some e.message⟩)

/-- The status-code table of §6, as a function of the kind alone. -/
def statusOf : ExcKind → Nat
  | .preprocessingError => 400
  | .invalidFeatureError => 400
  | .modelNotLoadedError => 503
  | .modelPredictionError => 503
  | .postprocessingError => 502
  | .predictionServiceError => 500
  | .otherError => 500

/-- Embeds `PredictionResponseSchema`: the pydantic response model. -/
structure PredictionResponseSchema where
  prediction : Value
  confidence : ℚ
  model_version : String

/-- Construction of `PredictionResponseSchema`: pydantic re-validates
`confidence` against its `ge=0.0, le=1.0` field constraints and raises a
(non-domain) validation error otherwise. -/
def mkPredictionResponseSchema (prediction : Value) (confidence : ℚ)
    (model_version : String) : Except Exc PredictionResponseSchema :=
  if 0 ≤ confidence ∧ confidence ≤ 1 then
    .ok ⟨prediction, confidence, model_version⟩
  else
    .error ⟨.otherError, "validation error for PredictionResponseSchema", none⟩

/-- Embeds `MCPPredictController.post_predict`: inside the `try`, build the domain
request from the schema's features, await the service, and build the
response schema; any exception is translated by the `except` chain
(`handleException`).  The service is abstract: any function from domain
request to domain response or exception. -/
def post_predict (svc : PredictionRequest → Except Exc PredictionResponse)
    (features : List (String × Value)) :
    Except (Nat × ErrorBody) PredictionResponseSchema :=
  let body : Except Exc PredictionResponseSchema := do
    let domain_request ← mkPredictionRequest features
    let domain_response ← svc domain_request
    mkPredictionResponseSchema domain_response.prediction
      domain_response.confidence domain_response.model_version
  match body with
  | .ok r => .ok r
  | .error e => .error (handleException e)

/-- Embeds `PredictionRequestSchema.validate_features_not_empty`: the pydantic
validator raises `ValueError("Features dictionary cannot be empty")` on an
empty mapping and passes the features through otherwise. -/
def validate_features_not_empty (v : List (String × Value)) :
    Except Exc (List (String × Value)) :=
  match v with
  | [] => .error ⟨.otherError, "Features dictionary cannot be empty", none⟩
  | _ => .ok v

/-- Outcome of one request at the HTTP boundary. -/
inductive HttpResult where
  | ok (r : PredictionResponseSchema)
  | err (status : Nat) (body : ErrorBody)
  | schemaReject (message : String)

/-- Modelled from the spec: the web framework runs the pydantic schema
validators before the controller, so a request whose body fails schema
validation is "rejected before the pipeline runs" and `post_predict` is
never entered; the dispatch itself lives in the framework, not under
`src/`.  On a valid schema the controller runs as embedded above. -/
def handleHttp (svc : PredictionRequest → Except Exc PredictionResponse)
    (features : List (String × Value)) : HttpResult :=
  match validate_features_not_empty features with
  | .error e => .schemaReject e.message
  | .ok fs =>
    match post_predict svc fs with
    | .ok r => .ok r
    | .error (s, b) => .err s b

/-! ### Python value equality -/

/-- Whether a Python value is numeric (`bool` being an `int` subclass) and
its exact numeric value. -/
def asNum : Value → Option ℚ
  | .vint n => some (n : ℚ)
  | .vfloat q => some q
  | .vbool b => some (if b then 1 else 0)
  | _ => none

mutual

/-- Python `==` on values, specialised to dictionaries listed in the same
key order (every comparison in this development is between dicts built in
identical order, where Python's order-insensitive dict equality agrees).
Numbers compare by numeric value across `int`/`float`/`bool`, as in
Python. -/
def pyEqV : Value → Value → Bool
  | .vlist xs, .vlist ys => pyEqL xs ys
  | .vdict d, .vdict e => pyEqD d e
  | .vstr s, .vstr t => s == t
  | .vnull, .vnull => true
  | a, b =>
    match asNum a, asNum b with
    | some x, some y => decide (x = y)
    | _, _ => false

/-- Pointwise Python `==` on lists. -/
def pyEqL : List Value → List Value → Bool
  | [], [] => true
  | x :: xs, y :: ys => pyEqV x y && pyEqL xs ys
  | _, _ => false

/-- Pointwise Python `==` on equally-ordered dicts. -/
def pyEqD : List (String × Value) → List (String × Value) → Bool
  | [], [] => true
  | (k, v) :: d, (k', v') :: e => k == k' && pyEqV v v' && pyEqD d e
  | _, _ => false

end

/-! ### Concrete instances used by the end-to-end scenario and witnesses -/

/-- The feature mapping of the §8 end-to-end scenario request. -/
def scenarioFeatures : List (String × Value) :=
  [("product_id", .vstr "ABC123"),
   ("historical_sales", .vlist [.vint 100, .vint 120, .vint 95]),
   ("season", .vstr "Winter")]

/-- The scenario's model stub: returns `[150, 180, 200]` for every input. -/
def scenarioModel : Value → Except Exc Value :=
  fun _ => .ok (.vlist [.vint 150, .vint 180, .vint 200])

/-- The scenario pipeline: default preprocessor (no feature mapping), the
model stub at version `"v1.0.0"`, default postprocessor with `"json"`
output format. -/
def scenarioComponents : Components :=
  ⟨DefaultPreprocessor.transform [], scenarioModel,
   fun _ => .ok "v1.0.0", DefaultPostprocessor.transform "json"⟩

/-- A preprocessor that itself raises
`PreprocessingError("boom")` — a named-kind exception raised directly by a
pipeline step. -/
def boomPreprocessor : List (String × Value) → Except Exc Value :=
  fun _ => .error ⟨.preprocessingError, "boom", none⟩

/-- Pipeline whose preprocessor raises a named-kind exception directly;
the other collaborators succeed. -/
def boomComponents : Components :=
  ⟨boomPreprocessor, fun v => .ok v, fun _ => .ok "v1", fun v => .ok v⟩

/-- A well-formed one-feature request used as concrete input. -/
def sampleRequest : PredictionRequest := ⟨[("product_id", .vstr "x")]⟩

/-- Pipeline whose steps all succeed but whose model version is the empty
string, so that response construction (step 5) raises its validation
`ValueError`. -/
def emptyVersionComponents : Components :=
  ⟨fun _ => .ok (.vint 1), fun v => .ok v, fun _ => .ok "",
   fun v => .ok v⟩

/-- Pipeline whose model raises a (non-domain) exception while the other
steps succeed. -/
def failingModelComponents : Components :=
  ⟨fun _ => .ok (.vint 1), fun _ => .error ⟨.otherError, "nope", none⟩,
   fun _ => .ok "v1", fun v => .ok v⟩

/-! ### Claims -/

/-- C6: the confidence computation is a pure function of the raw prediction
and the processed output; it returns the placeholder constant 0.8 for every
pair of inputs, which lies in [0.0, 1.0]. -/
theorem confidence_is_constant_in_unit_interval :
    ∀ raw_prediction processed_output : Value,
      calculate_confidence raw_prediction processed_output = 0.8 ∧
      0 ≤ calculate_confidence raw_prediction processed_output ∧
      calculate_confidence raw_prediction processed_output ≤ 1 := by
  intro raw processed
  refine ⟨?_, ?_, ?_⟩
  · norm_num [calculate_confidence, Rat.ofScientific, mkRat, Rat.normalize]
  · unfold calculate_confidence
    decide
  · unfold calculate_confidence
    decide

/-- C8: constructing a `PredictionRequest` from the empty feature mapping
fails validation, and a boundary request with empty features is rejected at
schema validation, identically for every injected service — the
orchestrator's `predict` is never invoked. -/
theorem empty_features_rejected_before_pipeline :
    mkPredictionRequest [] =
      .error ⟨.otherError, "Features dictionary cannot be empty", none⟩
    ∧ (∀ svc : PredictionRequest → Except Exc PredictionResponse,
        handleHttp svc [] =
          .schemaReject "Features dictionary cannot be empty")
    ∧ (∀ svc svc' : PredictionRequest → Except Exc PredictionResponse,
        handleHttp svc [] = handleHttp svc' []) :=
  ⟨rfl, fun _ => rfl, fun _ _ => rfl⟩

/-- C9: `PredictionResponse` construction fails for every confidence
strictly above 1 or strictly below 0, succeeds at both boundary values 0.0
and 1.0 when the model version is non-empty, and fails for every
confidence when the model version is empty. -/
theorem response_confidence_bounds :
    ∀ (p : Value) (conf : ℚ) (ver : String),
      ((1 < conf ∨ conf < 0) →
        mkPredictionResponse p conf ver =
          .error ⟨.otherError, "Confidence must be between 0.0 and 1.0", none⟩)
      ∧ (ver ≠ "" →
          mkPredictionResponse p 0 ver = .ok ⟨p, 0, ver⟩ ∧
          mkPredictionResponse p 1 ver = .ok ⟨p, 1, ver⟩)
      ∧ (∃ e : Exc, mkPredictionResponse p conf "" = .error e) := by
  intro p conf ver
  refine ⟨?_, ?_, ?_⟩
  · intro h
    have : ¬ (0 ≤ conf ∧ conf ≤ 1) := by
      rcases h with h | h
      · exact fun hc => absurd hc.2 (not_le.mpr h)
      · exact fun hc => absurd hc.1 (not_le.mpr h)
    simp [mkPredictionResponse, this]
  · intro hver
    constructor <;> simp [mkPredictionResponse, hver]
  · by_cases h : 0 ≤ conf ∧ conf ≤ 1
    · exact ⟨⟨.otherError, "Model version cannot be empty", none⟩,
        by simp [mkPredictionResponse, h]⟩
    · exact ⟨⟨.otherError, "Confidence must be between 0.0 and 1.0", none⟩,
        by simp [mkPredictionResponse, h]⟩

/-- C9 witness: construction fails at confidence 1.5 and -0.1, succeeds at
the boundary value 0 with a non-empty version, and fails at an empty
version. -/
theorem response_confidence_bounds_witness :
    mkPredictionResponse .vnull (mkRat 15 10) "v1" =
      .error ⟨.otherError, "Confidence must be between 0.0 and 1.0", none⟩
    ∧ mkPredictionResponse .vnull (mkRat (-1) 10) "v1" =
      .error ⟨.otherError, "Confidence must be between 0.0 and 1.0", none⟩
    ∧ mkPredictionResponse .vnull 0 "v1" = .ok ⟨.vnull, 0, "v1"⟩
    ∧ mkPredictionResponse .vnull 1 "v1" = .ok ⟨.vnull, 1, "v1"⟩
    ∧ ∃ e : Exc, mkPredictionResponse .vnull (mkRat 8 10) "" = .error e :=
  ⟨(response_confidence_bounds .vnull (mkRat 15 10) "v1").1 (Or.inl (by decide)),
   (response_confidence_bounds .vnull (mkRat (-1) 10) "v1").1 (Or.inr (by decide)),
   ((response_confidence_bounds .vnull 0 "v1").2.1 (by decide)).1,
   ((response_confidence_bounds .vnull 1 "v1").2.1 (by decide)).2,
   (response_confidence_bounds .vnull (mkRat 8 10) "v1").2.2⟩

/-- C1: the controller translates every exception thrown out of the
service into the fixed status code determined by its kind alone —
400 for PreprocessingError/InvalidFeatureError, 503 for
ModelNotLoadedError/ModelPredictionError, 502 for PostprocessingError,
500 for PredictionServiceError and for any kind not in the list — and two
exceptions of the same kind always receive the same status, whatever their
messages. -/
theorem controller_status_depends_only_on_kind :
    ∀ (e : Exc) (fs : List (String × Value)),
      (fs ≠ [] →
        post_predict (fun _ => .error e) fs = .error (handleException e))
      ∧ (handleException e).1 = statusOf e.kind
      ∧ statusOf .preprocessingError = 400
      ∧ statusOf .invalidFeatureError = 400
      ∧ statusOf .modelNotLoadedError = 503
      ∧ statusOf .modelPredictionError = 503
      ∧ statusOf .postprocessingError = 502
      ∧ statusOf .predictionServiceError = 500
      ∧ statusOf .otherError = 500
      ∧ (∀ e' : Exc, e'.kind = e.kind →
          (handleException e').1 = (handleException e).1) := by
  intro e fs
  obtain ⟨k, m, d⟩ := e
  refine ⟨?_, by cases k <;> rfl, rfl, rfl, rfl, rfl, rfl, rfl, rfl, ?_⟩
  · intro hfs
    match fs with
    | [] => exact absurd rfl hfs
    | _ :: _ => rfl
  · intro e' hk
    obtain ⟨k', m', d'⟩ := e'
    simp only [Exc.mk.injEq] at hk ⊢
    subst hk
    cases k' <;> rfl

/-- C1 witness: a PostprocessingError thrown by the service comes back as
status 502 with its formatted body. -/
theorem controller_status_depends_only_on_kind_witness :
    post_predict
      (fun _ => .error ⟨.postprocessingError,
        "Failed to postprocess model output", some "x"⟩)
      [("a", .vnull)] =
      .error (502, ⟨"PostprocessingError",
        "Failed to postprocess model output", some "x"⟩) :=
  (controller_status_depends_only_on_kind
    ⟨.postprocessingError, "Failed to postprocess model output", some "x"⟩
    [("a", .vnull)]).1 (List.cons_ne_nil _ _)

/-- C2: whenever the preprocessor's transform raises any exception, the
pipeline fails with a PreprocessingError carrying the original failure's
description as detail — never with ModelPredictionError or
PostprocessingError — and the result does not depend on the model or the
postprocessor, which are not invoked (the call trace stops at the
preprocessing step). -/
theorem preprocessor_failure_yields_preprocessing_error :
    ∀ (pre : List (String × Value) → Except Exc Value)
      (m m' : Value → Except Exc Value) (v v' : Unit → Except Exc String)
      (p p' : Value → Except Exc Value)
      (fs : List (String × Value)) (e : Exc),
      pre fs = .error e →
      predict ⟨pre, m, v, p⟩ ⟨fs⟩ =
        ([.pre], .error ⟨.preprocessingError,
          "Failed to preprocess input features", some e.message⟩)
      ∧ predict ⟨pre, m, v, p⟩ ⟨fs⟩ = predict ⟨pre, m', v', p'⟩ ⟨fs⟩ := by
  intro pre m m' v v' p p' fs e h
  constructor
  · simp [predict, predictBody, outerHandler, h]
  · simp [predict, predictBody, outerHandler, h]

/-- C2 witness: a preprocessor raising a plain exception makes the pipeline
fail with the wrapped PreprocessingError, with only the preprocessing call
in the trace. -/
theorem preprocessor_failure_yields_preprocessing_error_witness :
    predict ⟨fun _ => .error ⟨.otherError, "bad feature", none⟩,
             fun v => .ok v, fun _ => .ok "v1", fun v => .ok v⟩
        ⟨[("product_id", .vstr "x")]⟩ =
      ([.pre], .error ⟨.preprocessingError,
        "Failed to preprocess input features", some "bad feature"⟩) :=
  (preprocessor_failure_yields_preprocessing_error
    (fun _ => .error ⟨.otherError, "bad feature", none⟩)
    (fun v => .ok v) (fun v => .ok v) (fun _ => .ok "v1") (fun _ => .ok "v1")
    (fun v => .ok v) (fun v => .ok v)
    [("product_id", .vstr "x")] ⟨.otherError, "bad feature", none⟩ rfl).1

/-- C3: in every call, the preprocessor is invoked exactly once, the call
trace is a prefix of the fixed order preprocess, infer (model predict then
model version), postprocess — no step repeated or reordered — and a
ModelPredictionError can come out only if the preprocessor's transform
succeeded. -/
theorem pipeline_steps_once_in_order :
    ∀ (c : Components) (req : PredictionRequest),
      (predict c req).1.count .pre = 1
      ∧ ((predict c req).1 = [.pre] ∨ (predict c req).1 = [.pre, .infer] ∨
         (predict c req).1 = [.pre, .infer, .vers] ∨
         (predict c req).1 = [.pre, .infer, .vers, .post])
      ∧ (∀ e : Exc, (predict c req).2 = .error e →
          e.kind = .modelPredictionError →
          ∃ x, c.preTransform req.features = .ok x) := by
  intro c req
  rcases hp : c.preTransform req.features with e | x
  · refine ⟨?_, Or.inl ?_, ?_⟩
    · simp [predict, predictBody, hp]
    · simp [predict, predictBody, hp]
    · intro e' he hk
      simp [predict, predictBody, outerHandler, hp] at he
      rw [← he] at hk
      exact absurd hk (by simp)
  · refine ⟨?_, ?_, fun e' _ _ => ⟨x, rfl⟩⟩ <;>
    · rcases hm : c.modelPredict x with e1 | raw
      · simp [predict, predictBody, hp, hm]
      · rcases hv : c.version () with e2 | ver
        · simp [predict, predictBody, hp, hm, hv]
        · rcases hpost : c.postTransform raw with e3 | out
          · simp [predict, predictBody, hp, hm, hv, hpost]
          · rcases hmk : mkPredictionResponse out
                (calculate_confidence raw out) ver with e4 | resp <;>
              simp [predict, predictBody, hp, hm, hv, hpost, hmk]

/-- C3 witness: with a failing model after a succeeding preprocessor, the
pipeline raises a ModelPredictionError and the preprocessor indeed
succeeded. -/
theorem pipeline_steps_once_in_order_witness :
    ∃ x, failingModelComponents.preTransform sampleRequest.features = .ok x :=
  (pipeline_steps_once_in_order failingModelComponents sampleRequest).2.2
    ⟨.modelPredictionError, "Failed to execute model prediction", some "nope"⟩
    rfl rfl

/-- C4 counterexample: a preprocessor that raises
`PreprocessingError("boom")` directly does not have that exact exception
propagated — `predict` raises a PreprocessingError with the step's fixed
message and `"boom"` demoted to the detail field, a different exception
from the one the step raised. -/
theorem named_kind_is_rewrapped_counterexample :
    boomPreprocessor sampleRequest.features =
      .error ⟨.preprocessingError, "boom", none⟩
    ∧ (predict boomComponents sampleRequest).2 =
      .error ⟨.preprocessingError,
        "Failed to preprocess input features", some "boom"⟩
    ∧ (⟨.preprocessingError, "Failed to preprocess input features",
        some "boom"⟩ : Exc) ≠ ⟨.preprocessingError, "boom", none⟩ :=
  ⟨rfl, rfl, by decide⟩

/-- C4 amended: an exception of one of the three named kinds raised
directly by its own pipeline step keeps its kind, but is re-wrapped once by
that step's handler into the step's fixed message with the original
message as detail; the wrapped named-kind exception then passes through
the outer handler unchanged — it is never reclassified into
PredictionServiceError. -/
theorem named_kinds_wrapped_once_then_stable :
    ∀ (c : Components) (req : PredictionRequest) (e : Exc),
      (c.preTransform req.features = .error e →
        e.kind = .preprocessingError →
        (predict c req).2 = .error ⟨.preprocessingError,
          "Failed to preprocess input features", some e.message⟩)
      ∧ (∀ x, c.preTransform req.features = .ok x →
          c.modelPredict x = .error e → e.kind = .modelPredictionError →
          (predict c req).2 = .error ⟨.modelPredictionError,
            "Failed to execute model prediction", some e.message⟩)
      ∧ (∀ x raw ver, c.preTransform req.features = .ok x →
          c.modelPredict x = .ok raw → c.version () = .ok ver →
          c.postTransform raw = .error e → e.kind = .postprocessingError →
          (predict c req).2 = .error ⟨.postprocessingError,
            "Failed to postprocess model output", some e.message⟩)
      ∧ ((predictBody c req).2 = .error e →
          e.kind = .preprocessingError ∨ e.kind = .modelPredictionError ∨
            e.kind = .postprocessingError →
          (predict c req).2 = .error e) := by
  intro c req e
  refine ⟨?_, ?_, ?_, ?_⟩
  · intro hp _
    simp [predict, predictBody, outerHandler, hp]
  · intro x hp hm _
    simp [predict, predictBody, outerHandler, hp, hm]
  · intro x raw ver hp hm hv hpost _
    simp [predict, predictBody, outerHandler, hp, hm, hv, hpost]
  · intro hbody hk
    simp [predict, outerHandler, hbody, hk]

/-- C4 amended witness: the pipeline whose preprocessor raises
`PreprocessingError("boom")` produces a PreprocessingError with the fixed
message and `"boom"` as detail. -/
theorem named_kinds_wrapped_once_then_stable_witness :
    (predict boomComponents sampleRequest).2 =
      .error ⟨.preprocessingError,
        "Failed to preprocess input features", some "boom"⟩ :=
  (named_kinds_wrapped_once_then_stable boomComponents sampleRequest
    ⟨.preprocessingError, "boom", none⟩).1 rfl rfl

/-- Every error raised by `PredictionResponse` construction is a plain
`ValueError`, not a domain exception. -/
theorem mkPredictionResponse_error_kind :
    ∀ (p : Value) (conf : ℚ) (ver : String) (e : Exc),
      mkPredictionResponse p conf ver = .error e → e.kind = .otherError := by
  intro p conf ver e h
  by_cases h1 : 0 ≤ conf ∧ conf ≤ 1
  · by_cases h2 : ver = ""
    · simp [mkPredictionResponse, h1, h2] at h
      rw [← h]
    · simp [mkPredictionResponse, h1, h2] at h
  · simp [mkPredictionResponse, h1] at h
    rw [← h]

/-- C5: a failure in `predict` that is not one of the three named kinds —
in particular the response-entity validation error of step 5 — is wrapped
into a PredictionServiceError carrying the underlying failure's
description as detail; conversely, every error out of `predict` whose kind
is none of the three named kinds is a PredictionServiceError with the
fixed catch-all message. -/
theorem service_error_wraps_unclassified_failures :
    ∀ (c : Components) (req : PredictionRequest),
      (∀ (x raw out : Value) (ver : String) (e : Exc),
        c.preTransform req.features = .ok x →
        c.modelPredict x = .ok raw →
        c.version () = .ok ver →
        c.postTransform raw = .ok out →
        mkPredictionResponse out (calculate_confidence raw out) ver = .error e →
        (predict c req).2 = .error ⟨.predictionServiceError,
          "Unexpected error during prediction", some e.message⟩)
      ∧ (∀ e : Exc, (predict c req).2 = .error e →
          e.kind ≠ .preprocessingError → e.kind ≠ .modelPredictionError →
          e.kind ≠ .postprocessingError →
          e.kind = .predictionServiceError ∧
          e.message = "Unexpected error during prediction") := by
  intro c req
  constructor
  · intro x raw out ver e hp hm hv hpost hmk
    have hk : e.kind = .otherError :=
      mkPredictionResponse_error_kind out (calculate_confidence raw out) ver e hmk
    simp [predict, predictBody, outerHandler, hp, hm, hv, hpost, hmk, hk]
  · intro e he h1 h2 h3
    rcases hp : c.preTransform req.features with e0 | x
    · simp [predict, predictBody, outerHandler, hp] at he
      rw [← he] at h1
      simp at h1
    · rcases hm : c.modelPredict x with e1 | raw
      · simp [predict, predictBody, outerHandler, hp, hm] at he
        rw [← he] at h2
        simp at h2
      · rcases hv : c.version () with e2 | ver
        · simp [predict, predictBody, outerHandler, hp, hm, hv] at he
          rw [← he] at h2
          simp at h2
        · rcases hpost : c.postTransform raw with e3 | out
          · simp [predict, predictBody, outerHandler, hp, hm, hv, hpost] at he
            rw [← he] at h3
            simp at h3
          · rcases hmk : mkPredictionResponse out
                (calculate_confidence raw out) ver with e4 | resp
            · have hk : e4.kind = .otherError :=
                mkPredictionResponse_error_kind out
                  (calculate_confidence raw out) ver e4 hmk
              simp [predict, predictBody, outerHandler, hp, hm, hv, hpost,
                hmk, hk] at he
              rw [← he]
              exact ⟨rfl, rfl⟩
            · simp [predict, predictBody, outerHandler, hp, hm, hv, hpost,
                hmk] at he

/-- C5 witness: with every step succeeding but an empty model version, the
step-5 validation error comes out as a PredictionServiceError whose detail
is the validation error's description. -/
theorem service_error_wraps_unclassified_failures_witness :
    (predict emptyVersionComponents sampleRequest).2 =
      .error ⟨.predictionServiceError, "Unexpected error during prediction",
        some "Model version cannot be empty"⟩ :=
  (service_error_wraps_unclassified_failures emptyVersionComponents
    sampleRequest).1 (.vint 1) (.vint 1) (.vint 1) ""
    ⟨.otherError, "Model version cannot be empty", none⟩ rfl rfl rfl rfl rfl

/-- C7: the §8 end-to-end scenario.  The default preprocessor lowercases
the string features and float-casts the numeric list; the pipeline then
produces exactly the response
`prediction={"forecast": [150, 180, 200], "format": "json"},
confidence=0.8, model_version="v1.0.0"`, whose forecast entries are the
stub's integers — equal, under Python's numeric value equality, to the
floats `[150.0, 180.0, 200.0]` named by the specification. -/
theorem end_to_end_scenario :
    DefaultPreprocessor.transform [] scenarioFeatures =
      .ok (.vdict [("product_id", .vstr "abc123"),
                   ("historical_sales",
                     .vlist [.vfloat 100, .vfloat 120, .vfloat 95]),
                   ("season", .vstr "winter")])
    ∧ predict scenarioComponents ⟨scenarioFeatures⟩ =
      ([.pre, .infer, .vers, .post],
       .ok ⟨.vdict [("forecast", .vlist [.vint 150, .vint 180, .vint 200]),
                    ("format", .vstr "json")],
            0.8, "v1.0.0"⟩)
    ∧ pyEqV
        (.vdict [("forecast", .vlist [.vint 150, .vint 180, .vint 200]),
                 ("format", .vstr "json")])
        (.vdict [("forecast", .vlist [.vfloat 150, .vfloat 180, .vfloat 200]),
                 ("format", .vstr "json")]) = true := by
  refine ⟨rfl, ?_, rfl⟩
  rw [show (0.8 : ℚ) = mkRat 8 10 by
    norm_num [Rat.ofScientific, mkRat, Rat.normalize]]
  rfl

/-- C10: the default preprocessor's transform fails with a
PreprocessingError whenever the features lack the key `"product_id"` or
map it to null, and the required-feature validation succeeds on every
mapping whose `"product_id"` is present and non-null. -/
theorem required_feature_validation :
    ∀ fs : List (String × Value),
      (lookupV "product_id" fs = none →
        DefaultPreprocessor.transform [] fs =
          .error ⟨.preprocessingError, "Failed to preprocess input features",
                  some "Required feature missing: product_id"⟩)
      ∧ (lookupV "product_id" fs = some .vnull →
          DefaultPreprocessor.transform [] fs =
            .error ⟨.preprocessingError, "Failed to preprocess input features",
                    some "Feature cannot be null: product_id"⟩)
      ∧ (∀ v, lookupV "product_id" fs = some v → v ≠ .vnull →
          DefaultPreprocessor.validate_features
            DefaultPreprocessor.required_features fs = .ok ()) := by
  intro fs
  refine ⟨?_, ?_, ?_⟩
  · intro h
    simp [DefaultPreprocessor.transform, DefaultPreprocessor.validate_features,
      DefaultPreprocessor.required_features, h]
  · intro h
    simp [DefaultPreprocessor.transform, DefaultPreprocessor.validate_features,
      DefaultPreprocessor.required_features, h]
  · intro v h hv
    cases v <;>
      simp [DefaultPreprocessor.validate_features,
        DefaultPreprocessor.required_features, h]
    exact absurd rfl hv

/-- C10 witness: a mapping without `"product_id"` fails with the
missing-feature error, one mapping it to null fails with the null-feature
error, and one with a non-null `"product_id"` passes validation. -/
theorem required_feature_validation_witness :
    DefaultPreprocessor.transform [] [("season", .vstr "Winter")] =
      .error ⟨.preprocessingError, "Failed to preprocess input features",
              some "Required feature missing: product_id"⟩
    ∧ DefaultPreprocessor.transform [] [("product_id", .vnull)] =
      .error ⟨.preprocessingError, "Failed to preprocess input features",
              some "Feature cannot be null: product_id"⟩
    ∧ DefaultPreprocessor.validate_features
        DefaultPreprocessor.required_features
        [("product_id", .vstr "ABC123")] = .ok () :=
  ⟨(required_feature_validation [("season", .vstr "Winter")]).1 rfl,
   (required_feature_validation [("product_id", .vnull)]).2.1 rfl,
   (required_feature_validation [("product_id", .vstr "ABC123")]).2.2
     (.vstr "ABC123") rfl (fun h => nomatch h)⟩
